import Mathlib

/-!
# Verification of the UPC_PyGame arena-combat session engine

Shallow embedding of the session engine (`src/core/game_world.py`,
`src/core/game_objects.py`, `src/core/score_system.py`,
`src/api/api_endpoints.py`, `src/settings.py`) and proofs about it.

Conventions of the embedding:

* Machine times, durations, coordinates and velocities are rationals (`ℚ`);
  Python uses IEEE floats, but every claim checked here is about the exact
  arithmetic structure of the code, so `ℚ` is the faithful idealisation.
* Health and scores are integers, as in the source (`PLAYER_START_HEALTH = 5`,
  integer score deltas).
* The external collaborators excluded by the spec — the pymunk rigid-body
  engine (integration, `space.step`, shape queries, vector norms, `rotated`)
  and the pygame rendering layer — are not re-implemented.  Where the session
  engine consumes one of their results (a vector length, a cos/sin pair, a
  random sample, an overlap-query verdict) the result is passed in as an
  explicit argument or oracle function, and where the engine merely delegates
  to them (`space.step`, sprite/image updates) the call is a no-op on the
  modelled state.
* Python dictionaries (`players`, `scores`, cooldowns) are association lists
  with unique keys, preserving insertion order.
* `time.time()` is passed in explicitly as `now`.
-/

/-! ## Settings (`src/settings.py`) -/

def FPS : ℚ := 60

def PHYSICS_DT : ℚ := 1 / FPS

def PLAYER_THRUST : ℚ := 5

def PLAYER_ROTATION : ℚ := 8 / 100

def PLAYER_MAX_SPEED : ℚ := 100

def PLAYER_START_HEALTH : Int := 5

def SCANNING_RADIUS : ℚ := 150

def PROJECTILE_SPEED : ℚ := 200

def PROJECTILE_RADIUS : ℚ := 4

def PROJECTILE_LIFETIME_SECONDS : ℚ := 3

def PROJECTILE_DAMAGE : Int := 1

def ALLOW_FRIENDLY_FIRE : Bool := false

def OBSTACLE_DAMAGE : Int := 1

def COUNTDOWN_DURATION : ℚ := 1

def MAX_GAME_DURATION : ℚ := 30

/-- `SCORE_CONFIG` from `settings.py`. -/
structure ScoreConfig where
  kill_points : Int
  hit_points : Int
  collision_penalty : Int
  shot_penalty : Int
  life_penalty : Int
  deriving DecidableEq, Repr

def SCORE_CONFIG : ScoreConfig :=
  { kill_points := 10
    hit_points := 2
    collision_penalty := 5
    shot_penalty := 1
    life_penalty := 1 }

/-! ## Score system (`src/core/score_system.py`)

`ScoreSystem.scores` is a Python dict `{agent_id: score}`; modelled as an
association list with unique keys.  The Python `+=`/`-=` operations raise
`KeyError` on an unregistered id; every call site in the engine only uses
registered ids, and the model makes the update a no-op on an absent key. -/

abbrev Scores := List (String × Int)

/-- `scores[aid] += delta` (for a registered `aid`). -/
def updateScore (aid : String) (delta : Int) (scores : Scores) : Scores :=
  scores.map (fun e => if e.1 = aid then (e.1, e.2 + delta) else e)

/-- `ScoreSystem.register_agent`: `self.scores[agent_id] = 0` —
overwrites an existing entry, otherwise appends a fresh one. -/
def registerAgent (aid : String) (scores : Scores) : Scores :=
  if (scores.lookup aid).isSome then
    scores.map (fun e => if e.1 = aid then (e.1, 0) else e)
  else scores ++ [(aid, 0)]

/-- `ScoreSystem.get_score`: `self.scores.get(agent_id, 0)`. -/
def getScore (scores : Scores) (aid : String) : Int :=
  match scores.lookup aid with
  | some s => s
  | none => 0

/-- `ScoreSystem.on_game_end`: for each `(aid, life)` in `remaining_life`,
`self.scores[aid] -= life * self.life_penalty`. -/
def onGameEnd (remaining_life : List (String × Int)) (scores : Scores) : Scores :=
  remaining_life.foldl
    (fun acc e => updateScore e.1 (-(e.2 * SCORE_CONFIG.life_penalty)) acc) scores

/-! ## Entities (`src/core/game_objects.py`) -/

/-- The state of a pymunk body that the session engine reads and writes. -/
structure Body where
  position : ℚ × ℚ
  velocity : ℚ × ℚ
  angle : ℚ
  angular_velocity : ℚ
  deriving DecidableEq, Repr

/-- A player (`Triangle` in `game_objects.py`).  `in_space` records whether
the body and shape are currently registered in the pymunk space (they are
removed there when the player dies, see `take_damage`).  The pygame sprite
surface/rect bookkeeping is rendering-only and not modelled. -/
structure Triangle where
  health : Int
  ready : Bool
  /-- `self.spawn_protection_duration = 3.0` (set in `__init__`). -/
  spawn_protection_duration : ℚ
  spawn_protection_until : ℚ
  collisions : Nat
  shots_fired : Nat
  /-- `self.lifetime`: creation timestamp, overwritten with the elapsed
  lifetime on death and with the match start time when the game starts. -/
  lifetime : ℚ
  body : Body
  in_space : Bool
  deriving DecidableEq, Repr

/-- `Triangle.radius = 15`. -/
def TRIANGLE_RADIUS : ℚ := 15

/-- A projectile.  The Python object stores a direct reference to the owning
`Triangle`; the model stores the owner's player id (the handler only ever
uses `projectile.owner is player` identity tests and
`projectile.owner.player_id`, and projectiles never survive a reset, so the
id determines the reference). -/
structure Projectile where
  owner_id : String
  lifetime : ℚ
  body : Body
  deriving DecidableEq, Repr

/-- A fresh `Triangle(position, ...)`: `PLAYER_START_HEALTH` health,
`ready = False`, `spawn_protection_until = -1`, zero counters,
`lifetime = time.time()`, body at `position` with angle 0, added to the
physics space. -/
def mkTriangle (now : ℚ) (pos : ℚ × ℚ) : Triangle :=
  { health := PLAYER_START_HEALTH
    ready := false
    spawn_protection_duration := 3
    spawn_protection_until := -1
    collisions := 0
    shots_fired := 0
    lifetime := now
    body := { position := pos, velocity := (0, 0), angle := 0, angular_velocity := 0 }
    in_space := true }

/-! ## The game world (`src/core/game_world.py`) -/

/-- `GameWorld`.  `objects` in Python holds the eight static obstacles plus
the live projectiles; the obstacles are immutable after construction and
identical after every reset, so the model carries only the projectile part
of the list.  Players are *not* members of `objects` (`add_player` never
calls `add_object`). -/
structure GameWorld where
  width : ℚ
  height : ℚ
  players : List (String × Triangle)
  projectiles : List Projectile
  shot_count : Nat
  player_collisions : Nat
  next_color_index : Nat
  game_started : Bool
  waiting_for_players : Bool
  countdown_active : Bool
  countdown_seconds_remaining : ℚ
  /-- `self.start_time`; `none` models the attribute not yet existing
  (`hasattr` check in `update`). -/
  start_time : Option ℚ
  scores : Scores
  deriving DecidableEq, Repr

/-- Replace the entry for `pid` (dict item assignment on an existing key). -/
def setPlayer (pid : String) (p : Triangle) (ps : List (String × Triangle)) :
    List (String × Triangle) :=
  ps.map (fun e => if e.1 = pid then (e.1, p) else e)

/-- `Triangle.take_damage(amount)` for the player registered as `pid`.

Mirrors `game_objects.py` lines 126–151: damage is ignored under spawn
protection; otherwise `health -= amount`; if the new health is ≤ 0 the
player's body and shape are removed from the physics space and the sprite
from `game_world.objects` (a no-op — players are never in `objects`), and
`self.lifetime` becomes the elapsed lifetime.  The `players` dictionary is
NOT touched here: `remove_from_world` is not called on death. -/
def takeDamage (now : ℚ) (pid : String) (amount : Int) (w : GameWorld) : GameWorld :=
  match w.players.lookup pid with
  | none => w
  | some p =>
    if now < p.spawn_protection_until then w
    else
      let h := p.health - amount
      if h ≤ 0 then
        let p' := { p with health := h, lifetime := now - p.lifetime, in_space := false }
        { w with players := setPlayer pid p' w.players }
      else
        { w with players := setPlayer pid { p with health := h } w.players }

/-- `Triangle.remove_from_world` applied to the player registered as `pid`
(via `GameWorld.remove_player`): removes body/shape from the space, the
sprite from `objects` (a no-op for players) and deletes the entry from the
`players` dictionary. -/
def removePlayer (pid : String) (w : GameWorld) : GameWorld :=
  if (w.players.lookup pid).isSome then
    { w with players := w.players.filter (fun e => e.1 ≠ pid) }
  else w

/-- External-collaborator oracles consumed by the engine: `norm` is pymunk's
`Vec2d.length`, `trig` is `(math.cos θ, math.sin θ)`, `gen i attempt` is the
pair of `random.uniform` draws for spawn attempt `attempt` of the `i`-th
`add_player` call of a reset, and `collides pos` is the verdict of
`space.shape_query` at `pos` ("some overlapping shape has collision type 1
or 2"). -/
structure Env where
  norm : ℚ × ℚ → ℚ
  trig : ℚ → ℚ × ℚ
  gen : Nat → Nat → ℚ × ℚ
  collides : ℚ × ℚ → Bool

/-- `GameWorld.check_if_all_players_ready` (lines 213–246).  Returns the
mutated world and the Python return value `all_currently_ready`
(`False` on the empty-players early return). -/
def checkIfAllPlayersReady (now : ℚ) (w : GameWorld) : GameWorld × Bool :=
  if w.players.isEmpty then
    ({ w with waiting_for_players := true, game_started := false,
              countdown_active := false }, false)
  else
    let allReady := w.players.all (fun e => e.2.ready)
    if allReady && w.waiting_for_players && !w.countdown_active then
      ({ w with countdown_active := true
                countdown_seconds_remaining := COUNTDOWN_DURATION
                waiting_for_players := false
                players := w.players.map (fun e =>
                  (e.1, { e.2 with spawn_protection_until :=
                            now + e.2.spawn_protection_duration + COUNTDOWN_DURATION })) },
       allReady)
    else if !allReady && w.countdown_active then
      ({ w with countdown_active := false, waiting_for_players := true }, allReady)
    else if !allReady && !w.game_started then
      ({ w with waiting_for_players := true, game_started := false }, allReady)
    else (w, allReady)

/-- `GameWorld.player_ready` (lines 248–262). -/
def playerReady (now : ℚ) (pid : String) (w : GameWorld) : GameWorld :=
  match w.players.lookup pid with
  | none => w
  | some p =>
    if w.game_started then w
    else if !p.ready then
      (checkIfAllPlayersReady now
        { w with players := setPlayer pid { p with ready := true } w.players }).1
    else w

/-- `GameWorld.positive_player_thrust`: add
`Vector2(1,0).rotate_rad(angle) * PLAYER_THRUST` to the velocity, only once
the game has started. -/
def positivePlayerThrust (env : Env) (pid : String) (w : GameWorld) : GameWorld :=
  if !w.game_started then w
  else
    match w.players.lookup pid with
    | none => w
    | some p =>
      let t := env.trig p.body.angle
      let v := (p.body.velocity.1 + t.1 * PLAYER_THRUST,
                p.body.velocity.2 + t.2 * PLAYER_THRUST)
      { w with players := setPlayer pid { p with body := { p.body with velocity := v } } w.players }

/-- `GameWorld.negative_player_thrust`. -/
def negativePlayerThrust (env : Env) (pid : String) (w : GameWorld) : GameWorld :=
  if !w.game_started then w
  else
    match w.players.lookup pid with
    | none => w
    | some p =>
      let t := env.trig p.body.angle
      let v := (p.body.velocity.1 - t.1 * PLAYER_THRUST,
                p.body.velocity.2 - t.2 * PLAYER_THRUST)
      { w with players := setPlayer pid { p with body := { p.body with velocity := v } } w.players }

/-- `GameWorld.right_player_rotation`. -/
def rightPlayerRotation (pid : String) (w : GameWorld) : GameWorld :=
  if !w.game_started then w
  else
    match w.players.lookup pid with
    | none => w
    | some p =>
      let p' := { p with body := { p.body with angular_velocity := p.body.angular_velocity + PLAYER_ROTATION } }
      { w with players := setPlayer pid p' w.players }

/-- `GameWorld.left_player_rotation`. -/
def leftPlayerRotation (pid : String) (w : GameWorld) : GameWorld :=
  if !w.game_started then w
  else
    match w.players.lookup pid with
    | none => w
    | some p =>
      let p' := { p with body := { p.body with angular_velocity := p.body.angular_velocity - PLAYER_ROTATION } }
      { w with players := setPlayer pid p' w.players }

/-- `GameWorld.shoot` (lines 316–357).  No-op before the game starts, for an
unknown id, and under active spawn protection; otherwise increments the
player's `shots_fired`, spawns a projectile just in front of the nose,
increments the global `shot_count` and applies the shot score penalty. -/
def shoot (env : Env) (now : ℚ) (pid : String) (w : GameWorld) : GameWorld :=
  if !w.game_started then w
  else
    match w.players.lookup pid with
    | none => w
    | some p =>
      if now < p.spawn_protection_until then w
      else
        let p1 := { p with shots_fired := p.shots_fired + 1 }
        let t := env.trig p.body.angle
        let offset_distance := TRIANGLE_RADIUS + PROJECTILE_RADIUS + 1
        let start_pos := (p.body.position.1 + t.1 * offset_distance,
                          p.body.position.2 + t.2 * offset_distance)
        let proj : Projectile :=
          { owner_id := pid
            lifetime := PROJECTILE_LIFETIME_SECONDS
            body := { position := start_pos
                      velocity := (t.1 * PROJECTILE_SPEED, t.2 * PROJECTILE_SPEED)
                      angle := p.body.angle
                      angular_velocity := 0 } }
        { w with players := setPlayer pid p1 w.players
                 projectiles := w.projectiles ++ [proj]
                 shot_count := w.shot_count + 1
                 scores := updateScore pid (-SCORE_CONFIG.shot_penalty) w.scores }

/-! ## Spawn placement (`GameWorld.add_player`, lines 70–133) -/

/-- The sequence of candidate positions tried by the spawn loop:
attempt 0 targets the arena centre, attempts 1–9 are random draws
(`random.uniform(pad, width-pad)` pairs, supplied by the `gen` oracle). -/
def spawnCandidates (width height : ℚ) (gen : Nat → ℚ × ℚ) : List (ℚ × ℚ) :=
  (List.range 10).map (fun attempt =>
    if attempt = 0 then (width / 2, height / 2) else gen attempt)

/-- The spawn loop: the first candidate whose overlap query reports no
overlap with a player (type 1) or obstacle (type 2) shape, if any. -/
def findSafeSpawn (collides : ℚ × ℚ → Bool) (cands : List (ℚ × ℚ)) : Option (ℚ × ℚ) :=
  cands.find? (fun pos => !collides pos)

/-- `GameWorld.add_player`.  Fails (`none`) once the game has started and
when all 10 spawn attempts collide; on success registers the new `Triangle`
under `pid` (the given id, or the fresh UUID modelled as the caller-chosen
`pid`), bumps the colour index and creates the score-ledger entry. -/
def addPlayer (now : ℚ) (gen : Nat → ℚ × ℚ) (collides : ℚ × ℚ → Bool)
    (pid : String) (w : GameWorld) : Option String × GameWorld :=
  if w.game_started then (none, w)
  else
    match findSafeSpawn collides (spawnCandidates w.width w.height gen) with
    | some pos =>
      (some pid,
       { w with next_color_index := w.next_color_index + 1
                players := w.players ++ [(pid, mkTriangle now pos)]
                scores := registerAgent pid w.scores })
    | none => (none, w)

/-! ## Collision policy (`src/core/game_objects.py`, handlers) -/

/-- `player_hit_obstacle` (lines 355–387), for the player registered as
`pid`: at contact speed ≥ 90 % of `PLAYER_MAX_SPEED` the player's collision
counter is bumped, `OBSTACLE_DAMAGE` applied, the global collision counter
bumped and the collision score penalty charged; below the threshold nothing
changes (the bounce itself is pymunk's).  `speed` is the collaborator-computed
`body.velocity.length`. -/
def playerHitObstacle (now : ℚ) (speed : ℚ) (pid : String) (w : GameWorld) : GameWorld :=
  match w.players.lookup pid with
  | none => w
  | some p =>
    if speed ≥ PLAYER_MAX_SPEED * (9 / 10) then
      let w1 := { w with players := setPlayer pid { p with collisions := p.collisions + 1 } w.players }
      let w2 := takeDamage now pid OBSTACLE_DAMAGE w1
      { w2 with player_collisions := w2.player_collisions + 1
                scores := updateScore pid (-SCORE_CONFIG.collision_penalty) w2.scores }
    else w

/-- `projectile_hit_player` (lines 389–434) for projectile `proj` striking
the player registered as `pid` (the shape-order normalisation at the top of
the handler is identification, not state change).  Returns the mutated world
and the handler's boolean return value (`False` = pymunk ignores the
contact, so the projectile also physically passes through).

Order of effects, as in the source: friendly-fire self-hit check, then
`take_damage(PROJECTILE_DAMAGE)`, then hit points to the shooter, then —
if the victim's health is now ≤ 0 — kill points to the shooter, then the
projectile is removed. -/
def projectileHitPlayer (now : ℚ) (proj : Projectile) (pid : String) (w : GameWorld) :
    GameWorld × Bool :=
  if !ALLOW_FRIENDLY_FIRE && proj.owner_id = pid then (w, false)
  else
    let w1 := takeDamage now pid PROJECTILE_DAMAGE w
    let w2 := { w1 with scores := updateScore proj.owner_id SCORE_CONFIG.hit_points w1.scores }
    let victimHealth := match w2.players.lookup pid with
      | some p => p.health
      | none => 0
    let w3 :=
      if victimHealth ≤ 0 then
        { w2 with scores := updateScore proj.owner_id SCORE_CONFIG.kill_points w2.scores }
      else w2
    ({ w3 with projectiles := w3.projectiles.erase proj }, true)

/-! ## Per-entity updates -/

/-- The state-bearing part of `Triangle.update(dt)` (lines 92–112): clamp
the velocity to `PLAYER_MAX_SPEED`, rescaling by `PLAYER_MAX_SPEED / speed`
when `speed > PLAYER_MAX_SPEED`.  `speed` is the collaborator-computed
`body.velocity.length`; the remaining lines sync the sprite rect/image
(rendering only). -/
def triangleUpdate (speed : ℚ) (p : Triangle) : Triangle :=
  if speed > PLAYER_MAX_SPEED then
    let scale := PLAYER_MAX_SPEED / speed
    { p with body := { p.body with velocity := (p.body.velocity.1 * scale, p.body.velocity.2 * scale) } }
  else p

/-! ## The tick (`GameWorld.update`, lines 365–420) and reset protocol -/

/-- `player.body.angular_velocity *= 1 - 0.1 * PHYSICS_DT`, applied to every
registered player each tick. -/
def dampPlayer (e : String × Triangle) : String × Triangle :=
  (e.1, { e.2 with body := { e.2.body with
            angular_velocity := e.2.body.angular_velocity * (1 - (1 / 10) * PHYSICS_DT) } })

/-- The per-shape sprite update pass for a player: `Triangle.update` runs
only for players whose shape is still in the space (dead players' shapes
were removed, so the space iteration skips them). -/
def spriteUpdatePlayer (env : Env) (e : String × Triangle) : String × Triangle :=
  (e.1, if e.2.in_space then triangleUpdate (env.norm e.2.body.velocity) e.2 else e.2)

/-- The part of `update` after the max-duration check: `space.step`
(external), angular-velocity damping on every registered player, per-shape
sprite updates (speed clamp for players still in the space; lifetime
countdown and expiry removal for projectiles), countdown logic, and the
empty-player-set reset. -/
def updateRest (env : Env) (now dt : ℚ) (w : GameWorld) : GameWorld :=
  -- space.step(dt): motion integration by the external physics collaborator
  let players1 := w.players.map dampPlayer
  -- for shape in space.shapes: shape.sprite_ref.update(dt)
  let players2 := players1.map (spriteUpdatePlayer env)
  let projectiles2 := (w.projectiles.map (fun pr => { pr with lifetime := pr.lifetime - dt })).filter
    (fun pr => pr.lifetime > 0)
  let w1 := { w with players := players2, projectiles := projectiles2 }
  let w2 :=
    if w1.countdown_active then
      let rem := w1.countdown_seconds_remaining - dt
      if rem ≤ 0 then
        if !w1.players.isEmpty && w1.players.all (fun e => e.2.ready) then
          { w1 with countdown_seconds_remaining := 0
                    waiting_for_players := false
                    game_started := true
                    countdown_active := false
                    start_time := some now
                    players := w1.players.map (fun e => (e.1, { e.2 with lifetime := now })) }
        else
          { w1 with countdown_seconds_remaining := 0
                    countdown_active := false
                    waiting_for_players := true }
      else { w1 with countdown_seconds_remaining := rem }
    else w1
  if w2.players.isEmpty then
    { w2 with game_started := false
              waiting_for_players := true
              countdown_active := false
              countdown_seconds_remaining := 0
              shot_count := 0
              player_collisions := 0
              next_color_index := 0 }
  else w2

/-- `GameWorld.restart_game` (lines 466–520).  Applies the end-of-match life
penalty, snapshots the per-player final scores (this is what
`plot_game_statistics` reads and exports), resets the session flags and
counters, clears all projectiles, and respawns every previously registered
player under its old id via `add_player`.  Returns the new world and the
exported score snapshot. -/
def restartGame (env : Env) (now : ℚ) (w : GameWorld) : GameWorld × Scores :=
  let scores1 := onGameEnd (w.players.map (fun e => (e.1, e.2.health))) w.scores
  -- plot_game_statistics / CSV export read get_score for each registered player
  let stats := w.players.map (fun e => (e.1, getScore scores1 e.1))
  let w1 := { w with scores := scores1
                     game_started := false
                     waiting_for_players := true
                     countdown_active := false
                     countdown_seconds_remaining := 0
                     shot_count := 0
                     player_collisions := 0
                     next_color_index := 0
                     projectiles := [] }
  let old_players := w1.players
  let w2 := { w1 with players := [] }
  let w3 := (old_players.enum.foldl (fun acc e =>
      (addPlayer now (env.gen e.1) env.collides e.2.1 acc).2) w2)
  (w3, stats)

/-- `GameWorld.update(dt)`.  When the game is running and the elapsed match
time exceeds `MAX_GAME_DURATION`, the remaining-health penalty is applied
and `restart_game` runs (which applies it again) — early exit; otherwise the
regular tick body `updateRest` runs.  The second component is the score
snapshot exported when a restart happened this tick. -/
def update (env : Env) (now dt : ℚ) (w : GameWorld) : GameWorld × Option Scores :=
  if w.game_started then
    match w.start_time with
    | none => (updateRest env now dt { w with start_time := some now }, none)
    | some t0 =>
      if now - t0 > MAX_GAME_DURATION then
        let w1 := { w with scores := onGameEnd (w.players.map (fun e => (e.1, e.2.health))) w.scores }
        let r := restartGame env now w1
        (r.1, some r.2)
      else (updateRest env now dt w, none)
  else (updateRest env now dt w, none)

/-! ## Cooldown registry (`src/api/api_endpoints.py`, lines 22–60)

`player_cooldowns` is a dict of dicts
`{player_id: {endpoint_name: last_call_timestamp}}`; modelled flattened as
an association list keyed by the `(player_id, endpoint_name)` pair, with the
same `.get(endpoint_name, 0)` default of `0` for a never-seen pair. -/

abbrev Cooldowns := List ((String × String) × ℚ)

def COOLDOWN_SCAN_ENVIRONMENT : ℚ := 1 / 2

def COOLDOWN_PLAYER_STATE : ℚ := 1 / 2

def COOLDOWN_GAME_STATE : ℚ := 1 / 2

def COOLDOWN_SHOOT : ℚ := 1 / 10

/-- `player_cooldowns[player_id].get(endpoint_name, 0)`. -/
def cooldownLookup (cds : Cooldowns) (pid ep : String) : ℚ :=
  match cds.lookup (pid, ep) with
  | some t => t
  | none => 0

/-- `player_cooldowns[player_id][endpoint_name] = now`. -/
def setCooldown (cds : Cooldowns) (pid ep : String) (now : ℚ) : Cooldowns :=
  if (cds.lookup (pid, ep)).isSome then
    cds.map (fun e => if e.1 = (pid, ep) then (e.1, now) else e)
  else cds ++ [((pid, ep), now)]

/-- `check_cooldown(player_id, endpoint_name, cooldown_duration)`:
rejects (HTTP 429, carrying the remaining cooldown) when
`now - last_call < cooldown_duration`, otherwise stamps `now` and accepts.
`.error r` is the raised `HTTPException` with wait hint `r`; since an
exception aborts the handler, the stored map is unchanged on rejection. -/
def checkCooldown (cds : Cooldowns) (pid ep : String) (cooldown_duration now : ℚ) :
    Except ℚ Cooldowns :=
  let last_call := cooldownLookup cds pid ep
  if now - last_call < cooldown_duration then
    Except.error (cooldown_duration - (now - last_call))
  else
    Except.ok (setCooldown cds pid ep now)

/-! ## Sensor model (`GameWorld.scan_environment`, lines 528–657)

The geometric inputs of each record — the surface-to-surface `distance`, the
relative position and velocity already rotated into the observer's heading
frame — come from the physics collaborator (`Vec2d.get_distance`,
`Vec2d.rotated`); the noise injection applied to them is the session
engine's own code and is embedded here.  The `random.uniform(-a, a)` draws
are passed in as a `NoiseSample`, constrained to their ranges in the
theorems. -/

def POSITION_NOISE_MAX_OFFSET : ℚ := 8 / 10

def VELOCITY_NOISE_MAX_OFFSET : ℚ := 4 / 10

def DISTANCE_NOISE_MAX_PERCENTAGE : ℚ := 4 / 100

/-- One record's worth of `random.uniform` draws. -/
structure NoiseSample where
  pos_x : ℚ
  pos_y : ℚ
  vel_x : ℚ
  vel_y : ℚ
  dist : ℚ
  deriving DecidableEq, Repr

/-- The noisy record built for one in-range candidate: additive noise on
each rotated-relative coordinate, multiplicative `(1 + ε)` noise on the
scalar distance, clamped with `max(0, ·)`. -/
structure ScanRecord where
  relative_position : ℚ × ℚ
  relative_velocity : ℚ × ℚ
  distance : ℚ
  deriving DecidableEq, Repr

def noisyReading (relPos relVel : ℚ × ℚ) (distance : ℚ) (n : NoiseSample) : ScanRecord :=
  { relative_position := (relPos.1 + n.pos_x, relPos.2 + n.pos_y)
    relative_velocity := (relVel.1 + n.vel_x, relVel.2 + n.vel_y)
    distance := max 0 (distance * (1 + n.dist)) }

/-! ## Helper material for concrete instantiations -/

/-- Oracles instantiated with trivial collaborators, for concrete runs. -/
def env0 : Env :=
  { norm := fun _ => 0
    trig := fun _ => (1, 0)
    gen := fun _ _ => (0, 0)
    collides := fun _ => false }

/-- The session right after `GameWorld(SCREEN_WIDTH, SCREEN_HEIGHT)`
construction, with the obstacle layout elided (see `GameWorld`). -/
def baseWorld : GameWorld :=
  { width := 800
    height := 600
    players := []
    projectiles := []
    shot_count := 0
    player_collisions := 0
    next_color_index := 0
    game_started := false
    waiting_for_players := true
    countdown_active := false
    countdown_seconds_remaining := 0
    start_time := none
    scores := [] }

/-! ## Association-list lemmas -/

theorem lookup_map_keyUpdate {α β : Type} [BEq α] [LawfulBEq α] [DecidableEq α]
    (k : α) (f : β → β) (l : List (α × β)) :
    (l.map (fun e => if e.1 = k then (e.1, f e.2) else e)).lookup k
      = (l.lookup k).map f := by
  induction l with
  | nil => simp
  | cons hd tl ih =>
    obtain ⟨a, b⟩ := hd
    simp only [List.map_cons]
    by_cases h : a = k
    · subst h
      rw [if_pos rfl]
      simp [List.lookup, ih]
    · rw [if_neg (by simpa using h)]
      have hba : (k == a) = false := beq_false_of_ne (Ne.symm h)
      simp [List.lookup, hba, ih]

theorem lookup_map_keyUpdate_ne {α β : Type} [BEq α] [LawfulBEq α] [DecidableEq α]
    {k k' : α} (f : β → β) (l : List (α × β)) (h : k' ≠ k) :
    (l.map (fun e => if e.1 = k then (e.1, f e.2) else e)).lookup k'
      = l.lookup k' := by
  induction l with
  | nil => simp
  | cons hd tl ih =>
    obtain ⟨a, b⟩ := hd
    simp only [List.map_cons]
    by_cases hk : a = k
    · subst hk
      rw [if_pos rfl]
      have hba : (k' == a) = false := beq_false_of_ne h
      simp [List.lookup, hba, ih]
    · rw [if_neg (by simpa using hk)]
      cases hba : (k' == a) <;> simp [List.lookup, hba, ih]

theorem lookup_updateScore (aid : String) (d : Int) (s : Scores) :
    (updateScore aid d s).lookup aid = (s.lookup aid).map (fun v => v + d) :=
  lookup_map_keyUpdate aid (fun v => v + d) s

theorem lookup_updateScore_ne (aid aid' : String) (d : Int) (s : Scores)
    (h : aid' ≠ aid) :
    (updateScore aid d s).lookup aid' = s.lookup aid' :=
  lookup_map_keyUpdate_ne (fun v => v + d) s h

theorem lookup_setPlayer (pid : String) (p : Triangle) (ps : List (String × Triangle)) :
    (setPlayer pid p ps).lookup pid = (ps.lookup pid).map (fun _ => p) :=
  lookup_map_keyUpdate pid (fun _ => p) ps

/-! ## Concrete fixtures for witnesses and counterexamples -/

/-- A ready player at the arena centre with full health, spawn-protected
until `t = 100`. -/
def protectedPlayer : Triangle :=
  { mkTriangle 0 (400, 300) with ready := true, spawn_protection_until := 100 }

/-- A ready, unprotected player with full health. -/
def alivePlayer : Triangle :=
  { mkTriangle 0 (400, 300) with ready := true }

/-- A ready, unprotected player at 1 health. -/
def dyingPlayer : Triangle :=
  { mkTriangle 0 (200, 300) with ready := true, health := 1 }

/-- A running two-player match: shooter `"a"` (unprotected), victim `"b"`
spawn-protected. -/
def wProt : GameWorld :=
  { baseWorld with
      players := [("a", alivePlayer), ("b", protectedPlayer)]
      game_started := true
      waiting_for_players := false
      start_time := some 0
      scores := [("a", 0), ("b", 0)] }

/-- A running two-player match: shooter `"a"`, victim `"b"` at 1 health,
nobody protected. -/
def wDying : GameWorld :=
  { baseWorld with
      players := [("a", alivePlayer), ("b", dyingPlayer)]
      game_started := true
      waiting_for_players := false
      start_time := some 0
      scores := [("a", 0), ("b", 0)] }

/-- A projectile fired by `"a"`. -/
def projA : Projectile :=
  { owner_id := "a"
    lifetime := PROJECTILE_LIFETIME_SECONDS
    body := { position := (380, 300), velocity := (200, 0), angle := 0, angular_velocity := 0 } }

/-! ## C4 — spawn protection blocks damage and shooting -/

/-- Claim C4: for every player whose spawn-protection expiry timestamp is
still in the future, a damage application leaves its health unchanged (in
fact `take_damage` leaves the whole world unchanged), and a shoot command
creates no projectile and increments no shot counters (in fact `shoot`
leaves the whole world unchanged). -/
theorem C4_spawn_protection (env : Env) (now : ℚ) (pid : String) (amount : Int)
    (w : GameWorld) (p : Triangle)
    (hp : w.players.lookup pid = some p)
    (hprot : now < p.spawn_protection_until) :
    takeDamage now pid amount w = w ∧ shoot env now pid w = w := by
  constructor
  · unfold takeDamage
    rw [hp]
    simp [hprot]
  · unfold shoot
    by_cases hg : w.game_started
    · rw [hp] at *
      simp [hg, hp, hprot]
    · simp [hg]

/-- Witness for C4 at a concrete input: player `"b"` of `wProt` is protected
at `now = 10`, and both operations leave the world unchanged. -/
theorem C4_spawn_protection_witness :
    takeDamage 10 "b" 1 wProt = wProt ∧ shoot env0 10 "b" wProt = wProt :=
  C4_spawn_protection env0 10 "b" 1 wProt protectedPlayer (by decide) (by decide)

/-! ## C9 — speed clamp in the per-entity update -/

/-- A player moving at velocity `(120, 160)`, i.e. speed 200. -/
def fastPlayer : Triangle :=
  { alivePlayer with body := { alivePlayer.body with velocity := (120, 160) } }

/-- Claim C9 (implicit): after the per-entity update step the player's
linear speed is at most `PLAYER_MAX_SPEED`; whenever the incoming speed
exceeds the maximum, the velocity is rescaled to exactly the maximum while
preserving its direction (a positive scalar multiple), and otherwise it is
untouched.  `speed` is the collaborator-computed Euclidean length of the
velocity, characterised by the two hypotheses. -/
theorem C9_speed_clamp (speed : ℚ) (p : Triangle)
    (h0 : 0 ≤ speed)
    (hsq : speed ^ 2 = p.body.velocity.1 ^ 2 + p.body.velocity.2 ^ 2) :
    ((triangleUpdate speed p).body.velocity.1 ^ 2
       + (triangleUpdate speed p).body.velocity.2 ^ 2 ≤ PLAYER_MAX_SPEED ^ 2)
    ∧ (speed > PLAYER_MAX_SPEED →
        (triangleUpdate speed p).body.velocity.1 ^ 2
          + (triangleUpdate speed p).body.velocity.2 ^ 2 = PLAYER_MAX_SPEED ^ 2
        ∧ ∃ c : ℚ, 0 < c ∧ c < 1 ∧
            (triangleUpdate speed p).body.velocity
              = (c * p.body.velocity.1, c * p.body.velocity.2))
    ∧ (speed ≤ PLAYER_MAX_SPEED → triangleUpdate speed p = p) := by
  have hmax : (0 : ℚ) < PLAYER_MAX_SPEED := by norm_num [PLAYER_MAX_SPEED]
  by_cases hgt : speed > PLAYER_MAX_SPEED
  · have hs0 : speed ≠ 0 := (lt_trans hmax hgt).ne'
    have heq : (triangleUpdate speed p).body.velocity
        = (p.body.velocity.1 * (PLAYER_MAX_SPEED / speed),
           p.body.velocity.2 * (PLAYER_MAX_SPEED / speed)) := by
      simp [triangleUpdate, hgt]
    have hsqeq : (triangleUpdate speed p).body.velocity.1 ^ 2
        + (triangleUpdate speed p).body.velocity.2 ^ 2 = PLAYER_MAX_SPEED ^ 2 := by
      rw [heq]
      have expand : (p.body.velocity.1 * (PLAYER_MAX_SPEED / speed)) ^ 2
          + (p.body.velocity.2 * (PLAYER_MAX_SPEED / speed)) ^ 2
          = (p.body.velocity.1 ^ 2 + p.body.velocity.2 ^ 2) * (PLAYER_MAX_SPEED / speed) ^ 2 := by
        ring
      rw [expand, ← hsq]
      field_simp
    refine ⟨le_of_eq hsqeq, fun _ => ⟨hsqeq, PLAYER_MAX_SPEED / speed, ?_, ?_, ?_⟩, fun hle => absurd hgt (not_lt.mpr hle)⟩
    · exact div_pos hmax (lt_trans hmax hgt)
    · rw [div_lt_one (lt_trans hmax hgt)]
      exact hgt
    · rw [heq]
      simp only [Prod.mk.injEq]
      exact ⟨by ring, by ring⟩
  · push_neg at hgt
    have hid : triangleUpdate speed p = p := by
      simp [triangleUpdate, not_lt.mpr hgt]
    refine ⟨?_, fun hc => absurd hc (not_lt.mpr hgt), fun _ => hid⟩
    rw [hid, ← hsq]
    exact pow_le_pow_left₀ h0 hgt 2

/-- Witness for C9: a player moving at `(120, 160)` (speed 200) is clamped;
applying the theorem at that input. -/
theorem C9_speed_clamp_witness :
    (0 : ℚ) ≤ 200
    ∧ ((200 : ℚ) ^ 2 = (fastPlayer.body.velocity.1 : ℚ) ^ 2 + fastPlayer.body.velocity.2 ^ 2)
    ∧ ((triangleUpdate 200 fastPlayer).body.velocity.1 ^ 2
         + (triangleUpdate 200 fastPlayer).body.velocity.2 ^ 2 ≤ PLAYER_MAX_SPEED ^ 2) :=
  ⟨by norm_num,
   by norm_num [fastPlayer, alivePlayer, mkTriangle],
   (C9_speed_clamp 200 fastPlayer (by norm_num)
     (by norm_num [fastPlayer, alivePlayer, mkTriangle])).1⟩

/-! ## C6 — cooldown gate -/

theorem lookup_append_of_none {α β : Type} [BEq α] (k : α) (l1 l2 : List (α × β))
    (h : l1.lookup k = none) : (l1 ++ l2).lookup k = l2.lookup k := by
  induction l1 with
  | nil => simp
  | cons hd tl ih =>
    cases hk : (k == hd.1) with
    | true =>
      rw [List.lookup] at h
      simp [hk] at h
    | false =>
      rw [List.lookup] at h
      simp only [hk] at h
      simp [List.lookup, hk, ih h]

theorem cooldownLookup_setCooldown (cds : Cooldowns) (pid ep : String) (now : ℚ) :
    cooldownLookup (setCooldown cds pid ep now) pid ep = now := by
  unfold cooldownLookup setCooldown
  by_cases h : (cds.lookup (pid, ep)).isSome
  · rw [if_pos h]
    rw [lookup_map_keyUpdate (pid, ep) (fun _ => now) cds]
    obtain ⟨t, ht⟩ := Option.isSome_iff_exists.mp h
    rw [ht]
    rfl
  · rw [if_neg h]
    rw [lookup_append_of_none (pid, ep) cds _ (Option.not_isSome_iff_eq_none.mp h)]
    simp [List.lookup]

/-- Claim C6: for every `(player, endpoint)` pair, `check_cooldown` accepts
iff the elapsed time since the pair's recorded last invocation is at least
the configured cooldown; acceptance stamps `now` as the new recorded time;
rejection leaves the table untouched (the raised exception aborts before
the stamp) and carries a wait hint that equals the remaining cooldown, is
strictly positive, and — as long as the recorded time is not in the future —
is at most the configured interval. -/
theorem C6_cooldown_gate (cds : Cooldowns) (pid ep : String) (d now : ℚ) :
    ((∃ cds', checkCooldown cds pid ep d now = Except.ok cds')
        ↔ d ≤ now - cooldownLookup cds pid ep)
    ∧ (∀ cds', checkCooldown cds pid ep d now = Except.ok cds' →
         cooldownLookup cds' pid ep = now)
    ∧ (∀ r, checkCooldown cds pid ep d now = Except.error r →
         r = d - (now - cooldownLookup cds pid ep)
         ∧ 0 < r
         ∧ (cooldownLookup cds pid ep ≤ now → r ≤ d)) := by
  unfold checkCooldown
  by_cases h : now - cooldownLookup cds pid ep < d
  · simp only [if_pos h]
    refine ⟨⟨fun hex => ?_, fun hd => absurd hd (not_le.mpr h)⟩,
            fun cds' hc => Except.noConfusion hc, fun r hr => ?_⟩
    · obtain ⟨cds', hc⟩ := hex
      exact Except.noConfusion hc
    · have hre : r = d - (now - cooldownLookup cds pid ep) := (Except.error.inj hr).symm
      refine ⟨hre, ?_, fun hle => ?_⟩
      · rw [hre]
        linarith
      · rw [hre]
        linarith
  · simp only [if_neg h]
    push_neg at h
    refine ⟨⟨fun _ => h, fun _ => ⟨_, rfl⟩⟩, fun cds' hc => ?_, fun r hr => Except.noConfusion hr⟩
    rw [← Except.ok.inj hc]
    exact cooldownLookup_setCooldown cds pid ep now

/-- Witness for C6 at concrete inputs: on an empty table player `"p"` is
accepted for `scan_environment` at `now = 100`. -/
theorem C6_cooldown_gate_witness :
    COOLDOWN_SCAN_ENVIRONMENT ≤ 100 - cooldownLookup [] "p" "scan_environment"
    ∧ ∃ cds', checkCooldown [] "p" "scan_environment" COOLDOWN_SCAN_ENVIRONMENT 100
        = Except.ok cds' :=
  ⟨by norm_num [cooldownLookup, COOLDOWN_SCAN_ENVIRONMENT, List.lookup],
   (C6_cooldown_gate [] "p" "scan_environment" COOLDOWN_SCAN_ENVIRONMENT 100).1.mpr
     (by norm_num [cooldownLookup, COOLDOWN_SCAN_ENVIRONMENT, List.lookup])⟩

/-! ## C10 — hit points are awarded even when spawn protection absorbed the damage -/

/-- Claim C10 (implicit): when a projectile owned by a *different* player
strikes a victim whose spawn protection is still active, the victim's health
is unchanged, yet the shooter is still awarded the hit points and the
projectile is still removed — hit points do not depend on damage actually
being applied. -/
theorem C10_protected_hit_still_scores (now : ℚ) (proj : Projectile) (pid : String)
    (w : GameWorld) (p : Triangle) (s0 : Int)
    (hp : w.players.lookup pid = some p)
    (hprot : now < p.spawn_protection_until)
    (hown : proj.owner_id ≠ pid)
    (hhp : 0 < p.health)
    (hs : w.scores.lookup proj.owner_id = some s0) :
    ((projectileHitPlayer now proj pid w).1.players.lookup pid = some p)
    ∧ ((projectileHitPlayer now proj pid w).1.scores.lookup proj.owner_id
         = some (s0 + SCORE_CONFIG.hit_points))
    ∧ ((projectileHitPlayer now proj pid w).1.projectiles = w.projectiles.erase proj)
    ∧ (projectileHitPlayer now proj pid w).2 = true := by
  have hdmg : takeDamage now pid PROJECTILE_DAMAGE w = w := by
    unfold takeDamage
    rw [hp]
    simp [hprot]
  unfold projectileHitPlayer
  rw [if_neg (by simp [ALLOW_FRIENDLY_FIRE, hown]), hdmg]
  dsimp only
  rw [hp]
  dsimp only
  rw [if_neg (not_le.mpr hhp)]
  refine ⟨hp, ?_, rfl, rfl⟩
  rw [lookup_updateScore, hs]
  rfl

/-- Witness for C10: projectile of `"a"` strikes the protected `"b"` in
`wProt` at `now = 10`; health stays 5, `"a"` gains the 2 hit points, the
projectile disappears. -/
theorem C10_protected_hit_still_scores_witness :
    ((projectileHitPlayer 10 projA "b" wProt).1.players.lookup "b" = some protectedPlayer)
    ∧ ((projectileHitPlayer 10 projA "b" wProt).1.scores.lookup "a"
         = some (0 + SCORE_CONFIG.hit_points))
    ∧ ((projectileHitPlayer 10 projA "b" wProt).1.projectiles = wProt.projectiles.erase projA)
    ∧ (projectileHitPlayer 10 projA "b" wProt).2 = true :=
  C10_protected_hit_still_scores 10 projA "b" wProt protectedPlayer 0
    (by decide) (by decide) (by decide) (by decide) (by decide)

/-! ## C1 — death does not remove the player from the registry -/

/-- Claim C1 (code bug, evaluated at the failing input): in `wDying`, victim
`"b"` has 1 health and no spawn protection; `take_damage(1)` at `now = 10`
drives its health to 0 and removes its body and shape from the physics
space (`in_space = false`), yet the player is still registered in the
session's `players` dictionary — the registry entry survives the death
step, contradicting the claimed same-step removal. -/
theorem C1_death_leaves_registry_entry :
    (takeDamage 10 "b" 1 wDying).players.lookup "b"
      = some { dyingPlayer with health := 0, lifetime := 10, in_space := false }
    ∧ ((takeDamage 10 "b" 1 wDying).players.lookup "b").isSome = true := by
  have h : takeDamage 10 "b" 1 wDying = { wDying with players :=
      [("a", alivePlayer),
       ("b", { dyingPlayer with health := 0, lifetime := 10, in_space := false })] } := by
    norm_num [takeDamage, wDying, dyingPlayer, alivePlayer, baseWorld, mkTriangle,
      setPlayer, List.lookup, PLAYER_START_HEALTH,
      show ("b" : String) ≠ "a" from by decide,
      show ("a" : String) ≠ "b" from by decide,
      show (("b" : String) == "a") = false from by decide,
      show (("b" : String) == "b") = true from by decide]
  rw [h]
  constructor <;> rfl

/-! ## C2 — the end-of-match life penalty is applied twice on timeout -/

/-- A running one-player match (player `"p"`, health 5, score 0) that
started at `t = 0`. -/
def wRunning : GameWorld :=
  { baseWorld with
      players := [("p", alivePlayer)]
      game_started := true
      waiting_for_players := false
      start_time := some 0
      scores := [("p", 0)] }

/-- Claim C2 (code bug, evaluated at the failing input): at `now = 31` the
elapsed match time (31 s) exceeds `MAX_GAME_DURATION` (30 s), so the tick
takes the timeout path: it applies the life penalty (5 · 1) once itself and
then calls `restart_game`, which applies it again before exporting the
final-score statistics — the exported score is −10, not the −5 that a
single application (as on the explicit-restart path, second conjunct)
produces. -/
theorem C2_timeout_double_life_penalty :
    (update env0 31 (1 / 60) wRunning).2 = some [("p", -10)]
    ∧ (restartGame env0 31 wRunning).2 = [("p", -5)] := by
  constructor
  · norm_num [update, restartGame, wRunning, baseWorld, alivePlayer, mkTriangle, env0,
      onGameEnd, updateScore, getScore, addPlayer, findSafeSpawn, spawnCandidates,
      registerAgent, List.lookup, MAX_GAME_DURATION, SCORE_CONFIG, List.range,
      List.range.loop, List.enum, List.enumFrom, PLAYER_START_HEALTH]
  · norm_num [restartGame, wRunning, baseWorld, alivePlayer, mkTriangle, env0,
      onGameEnd, updateScore, getScore, addPlayer, findSafeSpawn, spawnCandidates,
      registerAgent, List.lookup, SCORE_CONFIG, List.range,
      List.range.loop, List.enum, List.enumFrom, PLAYER_START_HEALTH]

/-! ## C5 — projectile × player collision policy -/

/-- Claim C5 fails on the code at two concrete contacts (friendly fire
disabled throughout, shooter `"a"` ≠ victim `"b"`): (i) in `wProt` the
victim is spawn-protected, so — contrary to the claim — the fixed projectile
damage is *not* applied (health stays 5); (ii) in `wDying` the hit drives
the victim's health to 0, yet — contrary to the claim — the victim is *not*
removed from the registry (`players` still has the entry). -/
theorem C5_counterexample :
    ¬(((projectileHitPlayer 10 projA "b" wProt).1.players.lookup "b").map Triangle.health
        = some (protectedPlayer.health - PROJECTILE_DAMAGE))
    ∧ ¬((projectileHitPlayer 10 projA "b" wDying).1.players.lookup "b" = none) := by
  have hstr := show (("b" : String) == "a") = false from by decide
  have hstr2 := show (("b" : String) == "b") = true from by decide
  have hstr3 := show ("a" : String) ≠ "b" from by decide
  have hstr4 := show ("b" : String) ≠ "a" from by decide
  constructor
  · norm_num [projectileHitPlayer, takeDamage, updateScore, wProt, baseWorld,
      alivePlayer, protectedPlayer, mkTriangle, setPlayer, List.lookup, projA,
      ALLOW_FRIENDLY_FIRE, PROJECTILE_DAMAGE, PLAYER_START_HEALTH, SCORE_CONFIG,
      hstr, hstr2, hstr3, hstr4]
  · norm_num [projectileHitPlayer, takeDamage, updateScore, wDying, baseWorld,
      alivePlayer, dyingPlayer, mkTriangle, setPlayer, List.lookup, projA,
      ALLOW_FRIENDLY_FIRE, PROJECTILE_DAMAGE, PLAYER_START_HEALTH, SCORE_CONFIG,
      hstr, hstr2, hstr3, hstr4]
    exact Option.some_ne_none _

/-- Claim C5 as amended: on a projectile × player contact with friendly fire
disabled, (i) a self-hit is ignored — no damage and the projectile persists
(the handler returns `False`); (ii) otherwise the fixed projectile damage is
applied *unless the victim's spawn protection is active* (in which case the
health is unchanged), the shooter always gains the hit points, the shooter
additionally gains the kill points exactly when the victim's health after
the hit is ≤ 0 — in which case the victim's body and shape leave the physics
space while its entry *remains in the players registry* — and the
projectile is removed unconditionally. -/
theorem C5_amended_policy (now : ℚ) (proj : Projectile) (pid : String) (w : GameWorld)
    (p : Triangle) (s0 : Int)
    (hp : w.players.lookup pid = some p)
    (hs : w.scores.lookup proj.owner_id = some s0) :
    (proj.owner_id = pid → projectileHitPlayer now proj pid w = (w, false))
    ∧ (proj.owner_id ≠ pid →
        (((projectileHitPlayer now proj pid w).1.players.lookup pid).map Triangle.health
            = some (if now < p.spawn_protection_until then p.health
                    else p.health - PROJECTILE_DAMAGE))
        ∧ ((projectileHitPlayer now proj pid w).1.scores.lookup proj.owner_id
            = some (s0 + SCORE_CONFIG.hit_points
                + (if (if now < p.spawn_protection_until then p.health
                       else p.health - PROJECTILE_DAMAGE) ≤ 0
                   then SCORE_CONFIG.kill_points else 0)))
        ∧ ((projectileHitPlayer now proj pid w).1.projectiles = w.projectiles.erase proj)
        ∧ (((projectileHitPlayer now proj pid w).1.players.lookup pid).map Triangle.in_space
            = some (if now < p.spawn_protection_until then p.in_space
                    else if p.health - PROJECTILE_DAMAGE ≤ 0 then false else p.in_space))
        ∧ (projectileHitPlayer now proj pid w).2 = true) := by
  constructor
  · intro h
    simp [projectileHitPlayer, ALLOW_FRIENDLY_FIRE, h]
  · intro hop
    unfold projectileHitPlayer
    rw [if_neg (by simp [ALLOW_FRIENDLY_FIRE, hop])]
    by_cases hprot : now < p.spawn_protection_until
    · have hdmg : takeDamage now pid PROJECTILE_DAMAGE w = w := by
        unfold takeDamage
        rw [hp]
        simp [hprot]
      rw [hdmg]
      dsimp only
      rw [hp]
      dsimp only
      rw [if_pos hprot, if_pos hprot]
      by_cases hlow : p.health ≤ 0
      · rw [if_pos hlow, if_pos hlow]
        refine ⟨by rw [hp]; rfl, ?_, rfl, by rw [hp]; rfl, rfl⟩
        rw [lookup_updateScore, lookup_updateScore, hs]
        rfl
      · rw [if_neg hlow, if_neg hlow]
        refine ⟨by rw [hp]; rfl, ?_, rfl, by rw [hp]; rfl, rfl⟩
        rw [lookup_updateScore, hs]
        simp
    · set pDead : Triangle :=
        { p with health := p.health - PROJECTILE_DAMAGE,
                 lifetime := now - p.lifetime, in_space := false } with hpDead
      set pHurt : Triangle := { p with health := p.health - PROJECTILE_DAMAGE } with hpHurt
      by_cases hdead : p.health - PROJECTILE_DAMAGE ≤ 0
      · have hdmg : takeDamage now pid PROJECTILE_DAMAGE w
            = { w with players := setPlayer pid pDead w.players } := by
          unfold takeDamage
          rw [hp]
          dsimp only
          rw [if_neg hprot, if_pos hdead]
        have hlook : (setPlayer pid pDead w.players).lookup pid = some pDead := by
          rw [lookup_setPlayer, hp]
          rfl
        rw [hdmg]
        dsimp only
        rw [hlook]
        dsimp only
        rw [if_pos (show pDead.health ≤ 0 from hdead), if_neg hprot, if_neg hprot,
            if_pos hdead, if_pos hdead]
        refine ⟨by rw [hlook]; rfl, ?_, rfl, by rw [hlook]; rfl, rfl⟩
        rw [lookup_updateScore, lookup_updateScore, hs]
        rfl
      · have hdmg : takeDamage now pid PROJECTILE_DAMAGE w
            = { w with players := setPlayer pid pHurt w.players } := by
          unfold takeDamage
          rw [hp]
          dsimp only
          rw [if_neg hprot, if_neg hdead]
        have hlook : (setPlayer pid pHurt w.players).lookup pid = some pHurt := by
          rw [lookup_setPlayer, hp]
          rfl
        rw [hdmg]
        dsimp only
        rw [hlook]
        dsimp only
        rw [if_neg (show ¬pHurt.health ≤ 0 from hdead), if_neg hprot, if_neg hprot,
            if_neg hdead, if_neg hdead]
        refine ⟨by rw [hlook]; rfl, ?_, rfl, by rw [hlook]; rfl, rfl⟩
        rw [lookup_updateScore, hs]
        simp

/-- Witness for the amended C5 at a concrete input: the `wDying` contact —
health drops to 0, shooter gets hit + kill points, victim stays registered
out of the space, projectile removed. -/
theorem C5_amended_policy_witness :
    ("a" : String) ≠ "b"
    ∧ (((projectileHitPlayer 10 projA "b" wDying).1.players.lookup "b").map Triangle.health
        = some (if (10 : ℚ) < dyingPlayer.spawn_protection_until then dyingPlayer.health
                else dyingPlayer.health - PROJECTILE_DAMAGE)) :=
  ⟨by decide,
   ((C5_amended_policy 10 projA "b" wDying dyingPlayer 0 (by decide) (by decide)).2
      (by decide)).1⟩

/-! ## C8 — sensor noise bounds -/

/-- Claim C8 fails on the code at a concrete record: for two overlapping
entities the true surface-to-surface distance is negative (here −10, e.g.
touching bodies), and `max(0, ...)` clamps the report to 0, which differs
from the truth by 10 — far more than the configured 4 % of the distance.
(The noise draw here is 0, squarely inside the allowed range.) -/
theorem C8_counterexample :
    ¬(|(noisyReading (0, 0) (0, 0) (-10) ⟨0, 0, 0, 0, 0⟩).distance - (-10)|
        ≤ DISTANCE_NOISE_MAX_PERCENTAGE * |(-10 : ℚ)|) := by
  norm_num [noisyReading, DISTANCE_NOISE_MAX_PERCENTAGE]

/-- Claim C8 as amended: for a scan record built from noise draws inside
their configured ranges, each noisy relative-position coordinate is within
`POSITION_NOISE_MAX_OFFSET` of the true rotated relative position, each
noisy relative-velocity coordinate within `VELOCITY_NOISE_MAX_OFFSET` of the
true rotated relative velocity, the reported distance is never negative,
and — whenever the true surface-to-surface distance is non-negative — the
reported distance is within `DISTANCE_NOISE_MAX_PERCENTAGE` of it
(for overlapping entities, whose true surface distance is negative, the
report is clamped to 0 instead). -/
theorem C8_amended_noise_bounds (relPos relVel : ℚ × ℚ) (distance : ℚ) (n : NoiseSample)
    (hpx : |n.pos_x| ≤ POSITION_NOISE_MAX_OFFSET)
    (hpy : |n.pos_y| ≤ POSITION_NOISE_MAX_OFFSET)
    (hvx : |n.vel_x| ≤ VELOCITY_NOISE_MAX_OFFSET)
    (hvy : |n.vel_y| ≤ VELOCITY_NOISE_MAX_OFFSET)
    (hd : |n.dist| ≤ DISTANCE_NOISE_MAX_PERCENTAGE) :
    (|(noisyReading relPos relVel distance n).relative_position.1 - relPos.1|
        ≤ POSITION_NOISE_MAX_OFFSET)
    ∧ (|(noisyReading relPos relVel distance n).relative_position.2 - relPos.2|
        ≤ POSITION_NOISE_MAX_OFFSET)
    ∧ (|(noisyReading relPos relVel distance n).relative_velocity.1 - relVel.1|
        ≤ VELOCITY_NOISE_MAX_OFFSET)
    ∧ (|(noisyReading relPos relVel distance n).relative_velocity.2 - relVel.2|
        ≤ VELOCITY_NOISE_MAX_OFFSET)
    ∧ (0 ≤ (noisyReading relPos relVel distance n).distance)
    ∧ (0 ≤ distance →
        |(noisyReading relPos relVel distance n).distance - distance|
          ≤ DISTANCE_NOISE_MAX_PERCENTAGE * distance) := by
  refine ⟨by simpa [noisyReading] using hpx, by simpa [noisyReading] using hpy,
          by simpa [noisyReading] using hvx, by simpa [noisyReading] using hvy,
          le_max_left 0 _, fun hd0 => ?_⟩
  have hpos : 0 ≤ distance * (1 + n.dist) := by
    have h1 : (0 : ℚ) ≤ 1 + n.dist := by
      have := abs_le.mp hd
      have : -DISTANCE_NOISE_MAX_PERCENTAGE ≤ n.dist := this.1
      norm_num [DISTANCE_NOISE_MAX_PERCENTAGE] at this ⊢
      linarith
    exact mul_nonneg hd0 h1
  have hmax : (noisyReading relPos relVel distance n).distance = distance * (1 + n.dist) := by
    simp [noisyReading, max_eq_right hpos]
  rw [hmax]
  have hexp : distance * (1 + n.dist) - distance = distance * n.dist := by ring
  rw [hexp, abs_mul, abs_of_nonneg hd0, mul_comm]
  exact mul_le_mul_of_nonneg_right hd hd0

/-- Witness for the amended C8 at a concrete record: true rotated relative
position `(30, 40)`, velocity `(3, 4)`, surface distance 35, noise draws
`(1/2, −1/2, 1/4, −1/4, 1/50)`. -/
theorem C8_amended_noise_bounds_witness :
    (0 : ℚ) ≤ 35
    ∧ |(noisyReading (30, 40) (3, 4) 35 ⟨1/2, -1/2, 1/4, -1/4, 1/50⟩).distance - 35|
        ≤ DISTANCE_NOISE_MAX_PERCENTAGE * 35 :=
  ⟨by norm_num,
   (C8_amended_noise_bounds (30, 40) (3, 4) 35 ⟨1/2, -1/2, 1/4, -1/4, 1/50⟩
      (by norm_num [abs_le, POSITION_NOISE_MAX_OFFSET])
      (by norm_num [abs_le, POSITION_NOISE_MAX_OFFSET])
      (by norm_num [abs_le, VELOCITY_NOISE_MAX_OFFSET])
      (by norm_num [abs_le, VELOCITY_NOISE_MAX_OFFSET])
      (by norm_num [abs_le, DISTANCE_NOISE_MAX_PERCENTAGE])).2.2.2.2.2 (by norm_num)⟩

/-! ## C7 — spawn placement -/

/-- Claim C7: in `add_player` (with the game not yet started), the first
placement attempt targets the arena centre; exactly 10 candidate positions
are tried; a player is registered only at a candidate whose overlap query
reported no overlap (and registration places the fresh `Triangle` there
under the requested id); if every candidate collides, the operation fails
with the distinguishable `none` outcome and the world — in particular the
players registry — is unchanged. -/
theorem C7_spawn_placement (now : ℚ) (gen : Nat → ℚ × ℚ) (collides : ℚ × ℚ → Bool)
    (pid : String) (w : GameWorld)
    (hg : w.game_started = false) :
    ((spawnCandidates w.width w.height gen).head? = some (w.width / 2, w.height / 2))
    ∧ ((spawnCandidates w.width w.height gen).length = 10)
    ∧ (∀ newId w', addPlayer now gen collides pid w = (some newId, w') →
        newId = pid ∧ ∃ pos ∈ spawnCandidates w.width w.height gen,
          collides pos = false ∧ (pid, mkTriangle now pos) ∈ w'.players)
    ∧ ((∀ pos ∈ spawnCandidates w.width w.height gen, collides pos = true) →
        addPlayer now gen collides pid w = (none, w))
    ∧ ((addPlayer now gen collides pid w).1 = none →
        (addPlayer now gen collides pid w).2 = w) := by
  have hnotg : ¬w.game_started = true := by simp [hg]
  refine ⟨rfl, by simp [spawnCandidates], ?_, ?_, ?_⟩
  · intro newId w' heq
    unfold addPlayer at heq
    rw [if_neg hnotg] at heq
    cases hspawn : findSafeSpawn collides (spawnCandidates w.width w.height gen) with
    | none =>
      rw [hspawn] at heq
      exact absurd (congrArg Prod.fst heq) (by simp)
    | some pos =>
      rw [hspawn] at heq
      have h1 : newId = pid := by
        have := congrArg Prod.fst heq
        simpa using this.symm
      have h2 : w' = { w with next_color_index := w.next_color_index + 1
                              players := w.players ++ [(pid, mkTriangle now pos)]
                              scores := registerAgent pid w.scores } := by
        have := congrArg Prod.snd heq
        simpa using this.symm
      refine ⟨h1, pos, List.mem_of_find?_eq_some hspawn, ?_, ?_⟩
      · have := List.find?_some hspawn
        simpa using this
      · rw [h2]
        simp
  · intro hall
    have hnone : findSafeSpawn collides (spawnCandidates w.width w.height gen) = none := by
      unfold findSafeSpawn
      rw [List.find?_eq_none]
      intro pos hmem
      simp [hall pos hmem]
    unfold addPlayer
    rw [if_neg hnotg, hnone]
  · intro h1
    unfold addPlayer at h1 ⊢
    rw [if_neg hnotg] at h1 ⊢
    cases hspawn : findSafeSpawn collides (spawnCandidates w.width w.height gen) with
    | none => rfl
    | some pos =>
      rw [hspawn] at h1
      exact absurd h1 (by simp)

/-- Witness for C7 at a concrete input: `baseWorld` has not started, and
with an overlap oracle that always reports free space the player `"p"` is
registered at the first (centre) candidate. -/
theorem C7_spawn_placement_witness :
    baseWorld.game_started = false
    ∧ ((spawnCandidates baseWorld.width baseWorld.height (env0.gen 0)).head?
        = some (baseWorld.width / 2, baseWorld.height / 2)) :=
  ⟨rfl,
   (C7_spawn_placement 0 (env0.gen 0) env0.collides "p" baseWorld rfl).1⟩

/-! ## C3 — state-machine lemmas -/

theorem triangleUpdate_ready (s : ℚ) (p : Triangle) :
    (triangleUpdate s p).ready = p.ready := by
  unfold triangleUpdate
  split <;> rfl

theorem dampPlayer_fst (e : String × Triangle) : (dampPlayer e).1 = e.1 := rfl

theorem dampPlayer_ready (e : String × Triangle) :
    ((dampPlayer e).2).ready = e.2.ready := rfl

theorem spriteUpdatePlayer_ready (env : Env) (e : String × Triangle) :
    ((spriteUpdatePlayer env e).2).ready = e.2.ready := by
  unfold spriteUpdatePlayer
  dsimp only
  split
  · exact triangleUpdate_ready _ _
  · rfl

theorem all_ready_preserved {g : String × Triangle → String × Triangle}
    (hg : ∀ e, ((g e).2).ready = e.2.ready) (l : List (String × Triangle)) :
    ((l.map g).all fun e => e.2.ready) = l.all fun e => e.2.ready := by
  induction l with
  | nil => rfl
  | cons hd tl ih => simp [List.all_cons, hg, ih]

theorem isEmpty_map {α β : Type} (l : List α) (f : α → β) :
    (l.map f).isEmpty = l.isEmpty := by
  cases l <;> rfl

/-- The guard under which the tick's countdown-expiry branch may start the
match, and the revert when it fails: `updateRest` flips `game_started` to
`true` only when the countdown was active, the timer crossed zero this
tick, at least one player is registered and all of them are ready; if the
timer crosses zero with that guard failing, the tick ends in the waiting
state with the countdown cancelled and the game not started. -/
theorem updateRest_countdown_cases (env : Env) (now dt : ℚ) (w : GameWorld)
    (hg : w.game_started = false) :
    ((updateRest env now dt w).game_started = true →
      w.countdown_active = true ∧ w.countdown_seconds_remaining - dt ≤ 0
        ∧ w.players.isEmpty = false ∧ w.players.all (fun e => e.2.ready) = true)
    ∧ (w.countdown_active = true → w.countdown_seconds_remaining - dt ≤ 0 →
        (w.players.isEmpty = true ∨ w.players.all (fun e => e.2.ready) = false) →
        (updateRest env now dt w).game_started = false
          ∧ (updateRest env now dt w).waiting_for_players = true
          ∧ (updateRest env now dt w).countdown_active = false) := by
  have hA : (((w.players.map dampPlayer).map (spriteUpdatePlayer env)).all
      fun e => e.2.ready) = w.players.all fun e => e.2.ready := by
    rw [all_ready_preserved (spriteUpdatePlayer_ready env),
        all_ready_preserved dampPlayer_ready]
  have hE : ((w.players.map dampPlayer).map (spriteUpdatePlayer env)).isEmpty
      = w.players.isEmpty := by
    rw [isEmpty_map, isEmpty_map]
  unfold updateRest
  dsimp only
  by_cases hcd : w.countdown_active = true
  · rw [if_pos hcd]
    by_cases hrem : w.countdown_seconds_remaining - dt ≤ 0
    · rw [if_pos hrem]
      by_cases hguard : (!((w.players.map dampPlayer).map (spriteUpdatePlayer env)).isEmpty
          && ((w.players.map dampPlayer).map (spriteUpdatePlayer env)).all
               (fun e => e.2.ready)) = true
      · rw [if_pos hguard]
        rw [hE, hA, Bool.and_eq_true, Bool.not_eq_eq_eq_not, Bool.not_true] at hguard
        have hne : (((w.players.map dampPlayer).map (spriteUpdatePlayer env)).map
            (fun e => (e.1, { e.2 with lifetime := now }))).isEmpty = false := by
          rw [isEmpty_map, hE]
          exact hguard.1
        rw [if_neg (show ¬_ = true by rw [hne]; exact Bool.false_ne_true)]
        exact ⟨fun _ => ⟨hcd, hrem, hguard.1, hguard.2⟩,
               fun _ _ hfail => by
                 rcases hfail with hfail | hfail
                 · rw [hguard.1] at hfail
                   exact absurd hfail (by simp)
                 · rw [hguard.2] at hfail
                   exact absurd hfail (by simp)⟩
      · rw [if_neg hguard]
        rw [hE, hA] at hguard
        by_cases hre : ((w.players.map dampPlayer).map (spriteUpdatePlayer env)).isEmpty = true
        · rw [if_pos hre]
          exact ⟨fun hc => absurd hc (by simp), fun _ _ _ => ⟨rfl, rfl, rfl⟩⟩
        · rw [if_neg hre]
          exact ⟨fun hc => absurd (hg ▸ hc) (by simp [hg]), fun _ _ _ => ⟨hg, rfl, rfl⟩⟩
    · rw [if_neg hrem]
      by_cases hre : ((w.players.map dampPlayer).map (spriteUpdatePlayer env)).isEmpty = true
      · rw [if_pos hre]
        exact ⟨fun hc => absurd hc (by simp), fun _ hr _ => absurd hr hrem⟩
      · rw [if_neg hre]
        exact ⟨fun hc => absurd (hg ▸ hc) (by simp [hg]), fun _ hr _ => absurd hr hrem⟩
  · rw [if_neg hcd]
    by_cases hre : ((w.players.map dampPlayer).map (spriteUpdatePlayer env)).isEmpty = true
    · rw [if_pos hre]
      exact ⟨fun hc => absurd hc (by simp), fun hc => absurd hc hcd⟩
    · rw [if_neg hre]
      exact ⟨fun hc => absurd (hg ▸ hc) (by simp [hg]), fun hc => absurd hc hcd⟩

theorem takeDamage_game_started (now : ℚ) (pid : String) (amount : Int) (w : GameWorld) :
    (takeDamage now pid amount w).game_started = w.game_started := by
  unfold takeDamage
  cases w.players.lookup pid with
  | none => rfl
  | some p =>
    dsimp only
    split
    · rfl
    · split <;> rfl

theorem checkIfAllPlayersReady_game_started (now : ℚ) (w : GameWorld)
    (hg : w.game_started = false) :
    ((checkIfAllPlayersReady now w).1).game_started = false := by
  unfold checkIfAllPlayersReady
  split
  · rfl
  · dsimp only
    split
    · exact hg
    · split
      · exact hg
      · split
        · rfl
        · exact hg

theorem addPlayer_game_started (now : ℚ) (gen : Nat → ℚ × ℚ) (collides : ℚ × ℚ → Bool)
    (pid : String) (w : GameWorld) :
    ((addPlayer now gen collides pid w).2).game_started = w.game_started := by
  unfold addPlayer
  split
  · rfl
  · split <;> rfl

theorem foldl_addPlayer_game_started (env : Env) (now : ℚ)
    (l : List (Nat × (String × Triangle))) (w0 : GameWorld) :
    (l.foldl (fun acc e => (addPlayer now (env.gen e.1) env.collides e.2.1 acc).2)
        w0).game_started = w0.game_started := by
  induction l generalizing w0 with
  | nil => rfl
  | cons hd tl ih => rw [List.foldl_cons, ih, addPlayer_game_started]

theorem restartGame_game_started (env : Env) (now : ℚ) (w : GameWorld) :
    ((restartGame env now w).1).game_started = false := by
  unfold restartGame
  dsimp only
  rw [foldl_addPlayer_game_started]

/-- Claim C3: the session never enters `RUNNING` except at the instant the
countdown timer crosses zero with at least one player registered and every
registered player ready (conjunct 1 — and conjuncts 4–15: no other
operation of the engine can set `game_started`); if the countdown expires
with the guard failing the session returns to `WAITING_FOR_PLAYERS` without
starting (conjunct 2); and whenever a non-ready player is observed by the
readiness check during `COUNTDOWN` the session likewise reverts to
`WAITING_FOR_PLAYERS` (conjunct 3 — the code has no operation that flips a
registered player's readiness flag from true to false, so this check is the
only way "unreadying" manifests: a disconnect removes the player entirely
and a newly connecting player starts non-ready). -/
theorem C3_running_entry_guard (env : Env) (now dt : ℚ) (pid : String)
    (amount : Int) (speed : ℚ) (proj : Projectile) (w : GameWorld)
    (hg : w.game_started = false) :
    ((update env now dt w).1.game_started = true →
      w.countdown_active = true ∧ w.countdown_seconds_remaining - dt ≤ 0
        ∧ w.players.isEmpty = false ∧ w.players.all (fun e => e.2.ready) = true)
    ∧ (w.countdown_active = true → w.countdown_seconds_remaining - dt ≤ 0 →
        (w.players.isEmpty = true ∨ w.players.all (fun e => e.2.ready) = false) →
        (update env now dt w).1.game_started = false
          ∧ (update env now dt w).1.waiting_for_players = true
          ∧ (update env now dt w).1.countdown_active = false)
    ∧ (w.countdown_active = true → w.players.all (fun e => e.2.ready) = false →
        (checkIfAllPlayersReady now w).1.countdown_active = false
          ∧ (checkIfAllPlayersReady now w).1.waiting_for_players = true
          ∧ (checkIfAllPlayersReady now w).1.game_started = false)
    ∧ (playerReady now pid w).game_started = false
    ∧ ((addPlayer now (env.gen 0) env.collides pid w).2).game_started = false
    ∧ (removePlayer pid w).game_started = false
    ∧ (shoot env now pid w).game_started = false
    ∧ ((restartGame env now w).1).game_started = false
    ∧ (positivePlayerThrust env pid w).game_started = false
    ∧ (negativePlayerThrust env pid w).game_started = false
    ∧ (rightPlayerRotation pid w).game_started = false
    ∧ (leftPlayerRotation pid w).game_started = false
    ∧ (takeDamage now pid amount w).game_started = false
    ∧ ((projectileHitPlayer now proj pid w).1).game_started = false
    ∧ ((playerHitObstacle now speed pid w).game_started = false) := by
  have hupd : (update env now dt w).1 = updateRest env now dt w := by
    unfold update
    rw [if_neg (by simp [hg])]
  have hcases := updateRest_countdown_cases env now dt w hg
  refine ⟨by rw [hupd]; exact hcases.1, ?_, ?_, ?_, ?_, ?_, ?_, ?_, ?_, ?_, ?_, ?_, ?_, ?_, ?_⟩
  · intro h1 h2 h3
    rw [hupd]
    exact hcases.2 h1 h2 h3
  · intro hcd hall
    unfold checkIfAllPlayersReady
    by_cases hE0 : w.players.isEmpty = true
    · rw [if_pos hE0]
      exact ⟨rfl, rfl, rfl⟩
    · rw [if_neg hE0]
      dsimp only
      rw [if_neg (by rw [hall]; simp), if_pos (by rw [hall, hcd]; rfl)]
      exact ⟨rfl, rfl, hg⟩
  · unfold playerReady
    cases hlook : w.players.lookup pid with
    | none => exact hg
    | some p =>
      dsimp only
      rw [if_neg (by simp [hg])]
      split
      · exact checkIfAllPlayersReady_game_started now _ hg
      · exact hg
  · rw [addPlayer_game_started]
    exact hg
  · unfold removePlayer
    split <;> exact hg
  · unfold shoot
    rw [if_pos (by simp [hg])]
    exact hg
  · exact restartGame_game_started env now w
  · unfold positivePlayerThrust
    rw [if_pos (by simp [hg])]
    exact hg
  · unfold negativePlayerThrust
    rw [if_pos (by simp [hg])]
    exact hg
  · unfold rightPlayerRotation
    rw [if_pos (by simp [hg])]
    exact hg
  · unfold leftPlayerRotation
    rw [if_pos (by simp [hg])]
    exact hg
  · rw [takeDamage_game_started]
    exact hg
  · unfold projectileHitPlayer
    split
    · exact hg
    · dsimp only
      split
      · dsimp only
        rw [takeDamage_game_started]
        exact hg
      · dsimp only
        rw [takeDamage_game_started]
        exact hg
  · unfold playerHitObstacle
    cases hlook : w.players.lookup pid with
    | none => exact hg
    | some p =>
      dsimp only
      split
      · dsimp only
        rw [takeDamage_game_started]
        exact hg
      · exact hg

/-- Witness for C3 at a concrete input: in `baseWorld` (not started), the
ready command and an explicit restart both leave the session out of
`RUNNING`. -/
theorem C3_running_entry_guard_witness :
    (playerReady 0 "p" baseWorld).game_started = false
    ∧ ((restartGame env0 0 baseWorld).1).game_started = false :=
  ⟨(C3_running_entry_guard env0 0 (1 / 60) "p" 1 0 projA baseWorld rfl).2.2.2.1,
   (C3_running_entry_guard env0 0 (1 / 60) "p" 1 0 projA baseWorld
      rfl).2.2.2.2.2.2.2.1⟩
